import Mathlib

/-!
# Verification of the base-station relay and voice orchestrator

Shallow embedding of the core of `receiver_jetson_full.py` and
`jetson_processor.py`: the length-prefixed framing codec, the
processed-frame return listener, the camera relay forwarder, the recipe
ingestion paths (length-prefixed TCP and HTTP push), the scene-assessment
completion update, the audio receive loop with its cooldown and mute
gates, the experience-start transition, the oversize-datagram encoder
retry on the compute node, and the lock-discipline structure of every
critical section.

External collaborators (JPEG codec, VAD classifier, speech services,
JSON text parsing) are modelled as oracle function parameters; the
control flow around them is translated from the source.
-/

namespace Remy

/-- Bytes on the wire: each element is one byte value (`0 ≤ b < 256` is
not enforced structurally; no claim depends on it). -/
abbrev Bytes := List Nat

/-- Big-endian unsigned 32-bit interpretation of a 4-byte list, as in
`struct.unpack(">I", b)[0]`. -/
def u32be (b : Bytes) : Nat :=
  b.foldl (fun acc x => acc * 256 + x) 0

/-- `struct.pack(">I", n)`: the 4-byte big-endian encoding of `n`. -/
def pack_u32be (n : Nat) : Bytes :=
  [n / 2 ^ 24 % 256, n / 2 ^ 16 % 256, n / 2 ^ 8 % 256, n % 256]

/-- Python values decoded from JSON (`json.loads`): strings, integers,
booleans, null, lists and dicts.  Numeric payloads in the claims are
integers, so `num` carries an `Int`. -/
inductive Json where
  | str : String → Json
  | num : Int → Json
  | bool : Bool → Json
  | null : Json
  | arr : List Json → Json
  | obj : List (String × Json) → Json

/-- Python truthiness of a decoded JSON value (`if message:` etc.). -/
def truthy : Json → Bool
  | .str s => s ≠ ""
  | .num n => n ≠ 0
  | .bool b => b
  | .null => false
  | .arr l => ¬l.isEmpty
  | .obj l => ¬l.isEmpty

/-- Dict lookup: `d[k]` / `k in d` on a decoded JSON object. -/
def lookupKey (fields : List (String × Json)) (k : String) : Option Json :=
  (fields.find? (fun p => p.1 = k)).map Prod.snd

/-- `d.get(k, default)`. -/
def getD (fields : List (String × Json)) (k : String) (dflt : Json) : Json :=
  (lookupKey fields k).getD dflt

/-- The key priority list in `_step_to_string`. -/
def stepKeys : List String :=
  ["step", "description", "instruction", "text", "name"]

/-- `_step_to_string(step)`: a string is returned as-is; a dict is probed
for the first present key of `stepKeys` and its value rendered with
Python `str()` (oracle `pyStr`), falling back to `json.dumps` (oracle
`jsonDumps`); any other value is rendered with `str()`. -/
def step_to_string (pyStr jsonDumps : Json → String) : Json → String
  | .str s => s
  | .obj fields =>
      match stepKeys.findSome? (fun k => lookupKey fields k) with
      | some v => pyStr v
      | none => jsonDumps (.obj fields)
  | j => pyStr j

/-- Python `str()`-rendering used by f-strings: a `str` renders as itself,
anything else through the `pyStr` oracle. -/
def fstr (pyStr : Json → String) : Json → String
  | .str s => s
  | j => pyStr j

/-- Python iteration over a decoded JSON value, as performed by the
list comprehension over `recipeTaskQueue`: a list yields its elements,
a string yields its characters as one-character strings, a dict yields
its keys; iterating a number, a boolean or None raises `TypeError`
(modelled as `none`), which the HTTP handler catches before any
mutation. -/
def pyIter : Json → Option (List Json)
  | .arr items => some items
  | .str s => some (s.data.map (fun c => Json.str (String.mk [c])))
  | .obj fields => some (fields.map (fun p => Json.str p.1))
  | _ => none

/-- The slice of `ReceiverJetsonFullApp` state touched by recipe
ingestion, the experience-start transition and scene assessment:
`_recipe_steps` (elements are arbitrary Python values on the TCP path,
strings on the HTTP path), `_task_completed`, the GUI dirty flags,
`_experience_started`, `_voice_state`, `_muted`, the VLM message log,
and `spoken` — the list of texts handed to `_speak_to_esp32` threads. -/
structure RecipeSt where
  recipe_steps : List Json
  task_completed : List Bool
  task_queue_updated : Bool
  task_completion_dirty : Bool
  experience_started : Bool
  voice_state : String
  muted : Bool
  vlm_messages : List String
  vlm_rendered_count : Nat
  spoken : List String

/-- `_vlm_max_messages`. -/
def vlm_max_messages : Nat := 50

/-- `_append_vlm_message(msg)`: append, then keep only the last
`_vlm_max_messages` entries and clamp the rendered counter. -/
def append_vlm_message (st : RecipeSt) (msg : String) : RecipeSt :=
  let msgs := st.vlm_messages ++ [msg]
  if msgs.length > vlm_max_messages then
    { st with
      vlm_messages := msgs.drop (msgs.length - vlm_max_messages)
      vlm_rendered_count :=
        min st.vlm_rendered_count
          (msgs.drop (msgs.length - vlm_max_messages)).length }
  else
    { st with vlm_messages := msgs }

/-- Default greeting in `_start_experience` when `greeting` is falsy. -/
def default_greeting : String :=
  "Hi! I\x27m Remy, your kitchen assistant. Let\x27s get cooking!"

/-- `_start_experience(greeting)`: if the experience already started,
return immediately; otherwise set the flag, move the voice state to
Listening, append the `[ASSISTANT]` log line and — unless muted — spawn
a `_speak_to_esp32` thread for the greeting (tracked in `spoken`). -/
def start_experience (st : RecipeSt) (greeting : Option String) : RecipeSt :=
  if st.experience_started then st
  else
    let msg := match greeting with
      | some g => if g = "" then default_greeting else g
      | none => default_greeting
    let st := { st with experience_started := true, voice_state := "Listening" }
    let st := append_vlm_message st ("[ASSISTANT] " ++ msg)
    if st.muted then st else { st with spoken := st.spoken ++ [msg] }

/-- Greeting text built by `_handle_recipe_client` and the plain-list
branch of `_handle_chat_post`. -/
def recipe_greeting (n : Nat) : String :=
  "Hi! I see you have a " ++ toString n ++ "-step recipe. " ++
    "Let\x27s get cooking! Ask me anything along the way."

/-- Greeting text built by the recommendations branch of
`_handle_chat_post`. -/
def loaded_greeting (name : String) (n : Nat) : String :=
  "Hi! I\x27ve loaded " ++ name ++ " with " ++ toString n ++ " steps. " ++
    "Let\x27s get cooking! Ask me anything along the way."

/-- The recipe-replacement block of `_handle_recipe_client` once the
payload parsed to a JSON array: store the raw list, reset
`_task_completed` to all-false, set the GUI flag, and append the
`[RECIPE]` log line. -/
def recipe_replace (st : RecipeSt) (items : List Json) : RecipeSt :=
  let st := { st with
    recipe_steps := items
    task_completed := List.replicate items.length false
    task_queue_updated := true }
  append_vlm_message st
    ("[RECIPE] Received recipe with " ++ toString items.length ++ " steps")

/-- `_handle_recipe_client` after the framed payload bytes have been
fully read: `json.loads` (oracle `parse`; `none` models a decode
error), the `isinstance(_, list)` check, the replacement and the
experience start.  Any failure leaves the state untouched. -/
def handle_recipe_payload (parse : Bytes → Option Json) (st : RecipeSt)
    (payload : Bytes) : RecipeSt :=
  match parse payload with
  | some (.arr items) =>
      start_experience (recipe_replace st items)
        (some (recipe_greeting items.length))
  | _ => st

/-- `_handle_recipe_client` including the one-shot framing: read the
4-byte header from the connection byte stream `data`, reject payloads
above 10 MB, read exactly the declared number of bytes (abort if the
stream ends early), then hand off to `handle_recipe_payload`. -/
def handle_recipe_client (parse : Bytes → Option Json) (st : RecipeSt)
    (data : Bytes) : RecipeSt :=
  if data.length < 4 then st
  else
    let payload_len := u32be (data.take 4)
    if payload_len > 10 * 1024 * 1024 then st
    else
      let payload := (data.drop 4).take payload_len
      if payload.length ≠ payload_len then st
      else handle_recipe_payload parse st payload

/-- `_handle_chat_post(data)` on an already-parsed JSON body.

A plain list is mapped through `_step_to_string`; an empty result is
ignored.  A dict is probed for `message` (logged when truthy) and
`recommendations`; the `recipeTaskQueue` of the first recommendation
dict, when truthy and iterable (a list of items, a string of
characters, a dict of keys — per `pyIter`), replaces the steps.
Shapes on which the Python code raises before any state mutation
(a truthy non-list `recommendations`, whose subscript raises; a
non-dict first recommendation, whose `.get` raises; a truthy
non-iterable task queue; a non-list non-dict body) are modelled as the
identity. -/
def handle_chat_post (pyStr jsonDumps : Json → String) (st : RecipeSt)
    (data : Json) : RecipeSt :=
  match data with
  | .arr items =>
      let steps := items.map (step_to_string pyStr jsonDumps)
      if steps.isEmpty then st
      else
        let st := { st with
          recipe_steps := steps.map Json.str
          task_completed := List.replicate steps.length false
          task_queue_updated := true }
        let st := append_vlm_message st
          ("[RECIPE] Received " ++ toString steps.length ++ " steps")
        start_experience st (some (recipe_greeting steps.length))
  | .obj fields =>
      let message := getD fields "message" (.str "")
      let recommendations := getD fields "recommendations" (.arr [])
      let st := if truthy message then
          append_vlm_message st ("[CHAT] " ++ fstr pyStr message)
        else st
      if truthy recommendations then
        (match recommendations with
        | .arr (rec :: _) =>
            (match rec with
            | .obj rfields =>
                let task_queue := getD rfields "recipeTaskQueue" (.arr [])
                if truthy task_queue then
                  (match pyIter task_queue with
                  | some qitems =>
                      let steps := qitems.map (step_to_string pyStr jsonDumps)
                      let st := { st with
                        recipe_steps := steps.map Json.str
                        task_completed := List.replicate steps.length false
                        task_queue_updated := true }
                      let name := fstr pyStr
                        (getD rfields "name" (.str "Unknown Recipe"))
                      let st := append_vlm_message st
                        ("[RECIPE] " ++ name ++ ": " ++
                          toString steps.length ++ " steps loaded")
                      start_experience st
                        (some (loaded_greeting name steps.length))
                  | none => st)
                else st
            | _ => st)
        | _ => st)
      else st
  | _ => st

/-! ## Scene-assessment completion update (`_check_step_completion`) -/

/-- One pass of the loop body `if 0 <= idx < len(l): l[idx] = True` for a
single index from the assessment response. -/
def setCompleted (l : List Bool) (idx : Int) : List Bool :=
  if 0 ≤ idx ∧ idx < (l.length : Int) then l.set idx.toNat true else l

/-- `for idx in completed_indices: ...` applied left to right. -/
def applyCompleted (start : List Bool) (idxs : List Int) : List Bool :=
  idxs.foldl setCompleted start

/-- The state update of `_check_step_completion` after the reasoning
response has been parsed to a list of integer indices: rebuild
`_task_completed` as all-false of the current step count, mark each
in-range listed index true, set the dirty flag. -/
def check_step_completion_apply (st : RecipeSt) (completed_indices : List Int) :
    RecipeSt :=
  { st with
    task_completed :=
      applyCompleted (List.replicate st.recipe_steps.length false)
        completed_indices
    task_completion_dirty := true }

/-! ## Datagram framing and the processed-frame return listener -/

/-- The datagram parse shared by `_jetson_recv_loop` (receiver, lines
454-459) and `run_processor` (compute node, lines 254-259): at least 4
bytes, big-endian declared length, and the remainder must have exactly
the declared length; otherwise the datagram is dropped. -/
def parse_datagram (data : Bytes) : Option Bytes :=
  if data.length < 4 then none
  else
    let frame_len := u32be (data.take 4)
    let jpeg_data := data.drop 4
    if jpeg_data.length = frame_len then some jpeg_data else none

/-- Per-stream state of the processed-frame return listener:
`_jetson_frame`, `_jetson_frame_count`, `_jetson_fps`,
`_jetson_fps_time`, `_jetson_connected`.  `Frame` is the opaque decoded
image type. -/
structure JetsonStreamState (Frame : Type) where
  jetson_frame : Option Frame
  jetson_frame_count : Nat
  jetson_fps : ℚ
  jetson_fps_time : ℚ
  jetson_connected : Bool

/-- One iteration of the `_jetson_recv_loop` body after `recvfrom`
returned `data` at monotonic time `now`.  `imdecode` is the opaque
`cv2.imdecode` (returning `none` for an undecodable payload).  The
connected flag flips on the first datagram; a short datagram, a length
mismatch, or a decode failure leaves the frame, counter and FPS fields
untouched. -/
def jetson_recv_step {Frame : Type} (imdecode : Bytes → Option Frame)
    (st : JetsonStreamState Frame) (data : Bytes) (now : ℚ) :
    JetsonStreamState Frame :=
  let st := if st.jetson_connected then st
    else { st with jetson_connected := true }
  match parse_datagram data with
  | none => st
  | some jpeg_data =>
      match imdecode jpeg_data with
      | none => st
      | some rgb =>
          let st := { st with
            jetson_frame := some rgb
            jetson_frame_count := st.jetson_frame_count + 1 }
          let elapsed := now - st.jetson_fps_time
          if 1 ≤ elapsed then
            { st with
              jetson_fps := (st.jetson_frame_count : ℚ) / elapsed
              jetson_frame_count := 0
              jetson_fps_time := now }
          else st

/-! ## Camera listener and relay forwarder (`_camera_recv_loop`) -/

/-- Reading one frame from the camera TCP byte stream: a 4-byte header
(`_recv_exactly(conn, 4)`), then exactly the declared number of payload
bytes (`_recv_exactly(conn, frame_len)`).  Returns the header, the
payload and the unread rest of the stream, or `none` when the stream
ends early (disconnect). -/
def camera_read_frame (stream : Bytes) : Option (Bytes × Bytes × Bytes) :=
  if stream.length < 4 then none
  else
    let header := stream.take 4
    let rest := stream.drop 4
    let frame_len := u32be header
    if rest.length < frame_len then none
    else some (header, rest.take frame_len, rest.drop frame_len)

/-- Camera-stream state slice: `_camera_frame`, `_camera_frame_count`,
`_camera_fps`, `_camera_fps_time`, plus the `_experience_started` gate
read by the forwarder. -/
structure CameraState (Frame : Type) where
  camera_frame : Option Frame
  camera_frame_count : Nat
  camera_fps : ℚ
  camera_fps_time : ℚ
  experience_started : Bool

/-- Result of processing one received camera frame: the new state and
the datagram handed to `_fwd_sock.sendto` (toward the compute node), if
any. -/
structure CameraStepResult (Frame : Type) where
  st : CameraState Frame
  forwarded : Option Bytes

/-- The body of `_camera_recv_loop` for one frame already read off the
wire as `header`/`jpeg_data`: decode (drop the frame on failure before
any state change or forwarding), store the frame, update counters and
FPS, and — once the experience has started — forward `header +
jpeg_data` unchanged. -/
def camera_frame_step {Frame : Type} (imdecode : Bytes → Option Frame)
    (st : CameraState Frame) (header jpeg_data : Bytes) (now : ℚ) :
    CameraStepResult Frame :=
  match imdecode jpeg_data with
  | none => ⟨st, none⟩
  | some rgb =>
      let st := { st with
        camera_frame := some rgb
        camera_frame_count := st.camera_frame_count + 1 }
      let elapsed := now - st.camera_fps_time
      let st := if 1 ≤ elapsed then
          { st with
            camera_fps := (st.camera_frame_count : ℚ) / elapsed
            camera_frame_count := 0
            camera_fps_time := now }
        else st
      if st.experience_started then ⟨st, some (header ++ jpeg_data)⟩
      else ⟨st, none⟩

/-! ## Compute-node encoder and oversize retry (`run_processor`) -/

/-- `MAX_UDP_PAYLOAD` in `jetson_processor.py`. -/
def MAX_UDP_PAYLOAD : Nat := 65503

/-- The encode-and-send tail of `run_processor` for one processed frame:
`imencode q` is the opaque `cv2.imencode` of the processed image at
JPEG quality `q` (`none` when `ok` is false).  A first encode whose
header+payload would exceed `MAX_UDP_PAYLOAD` is retried once at
quality `max(20, jpeg_quality - 30)`; a still-oversized result is
dropped.  Returns the datagram handed to `send_sock.sendto`, or `none`
when the frame is dropped. -/
def encode_for_send (imencode : Int → Option Bytes) (jpeg_quality : Int) :
    Option Bytes :=
  match imencode jpeg_quality with
  | none => none
  | some jpeg_bytes =>
      if jpeg_bytes.length + 4 > MAX_UDP_PAYLOAD then
        match imencode (max 20 (jpeg_quality - 30)) with
        | none => none
        | some retry_bytes =>
            if retry_bytes.length + 4 > MAX_UDP_PAYLOAD then none
            else some (pack_u32be retry_bytes.length ++ retry_bytes)
      else some (pack_u32be jpeg_bytes.length ++ jpeg_bytes)

/-! ## Audio receive loop (`_audio_recv_loop`) -/

/-- The start/end event set returned by one `VADIterator` call
(`speech_dict`): `hasStart` models membership of the start key in the dict,
`hasEnd` membership of the end key; both false models an empty/None
dict. -/
structure VadEvent where
  hasStart : Bool
  hasEnd : Bool

/-- `bytes_needed = int(VAD_CHUNK_SAMPLES * AUDIO_RATE / VAD_RATE) *
AUDIO_SAMPLE_WIDTH` — the 44.1 kHz byte count consumed per VAD
analysis window (Python float truncation agrees with Nat division
here). -/
def bytes_needed : Nat := 512 * 44100 / 16000 * 2

/-- `_speak_cooldown` (seconds). -/
def speak_cooldown : ℚ := 7

/-- State touched by `_audio_recv_loop`: the app fields it reads or
writes (`_experience_started`, `_manual_recording`, `_manual_chunks`,
`_last_speak_end`, `_muted`, `_voice_state`) and the loop locals
(`packet_buffer`, `is_recording`, `recorded_chunks`, `chunk_count`). -/
structure AudioState where
  experience_started : Bool
  manual_recording : Bool
  manual_chunks : List Bytes
  last_speak_end : ℚ
  muted : Bool
  voice_state : String
  packet_buffer : Bytes
  is_recording : Bool
  recorded_chunks : List Bytes
  chunk_count : Nat

/-- Result of the inner `while len(packet_buffer) >= bytes_needed`
drain: the remaining buffer and locals, the number of VAD classifier
invocations made, and the chunk lists handed to spawned
`_process_voice_query` threads. -/
structure AudioDrainResult where
  packet_buffer : Bytes
  is_recording : Bool
  recorded_chunks : List Bytes
  chunk_count : Nat
  voice_state : String
  vad_calls : Nat
  spawned_queries : List (List Bytes)

/-- The inner drain loop of `_audio_recv_loop`.  Each iteration slices
one `bytes_needed`-byte chunk off the buffer, resamples and classifies
it (`vad` abstracts resample + Silero model + `VADIterator`, counted in
`vad_calls`), appends the original chunk to `recorded_chunks` while
recording, starts recording on a `start` event (setting `_voice_state`
under `_voice_lock`), and on an `end` event hands the accumulated
chunks to a spawned `_process_voice_query` thread. -/
def audio_drain (vad : Bytes → VadEvent) (buffer : Bytes)
    (is_recording : Bool) (recorded_chunks : List Bytes) (chunk_count : Nat)
    (voice_state : String) (vad_calls : Nat)
    (spawned_queries : List (List Bytes)) : AudioDrainResult :=
  if _h : bytes_needed ≤ buffer.length then
    let chunk_original := buffer.take bytes_needed
    let buffer := buffer.drop bytes_needed
    let chunk_count := chunk_count + 1
    let vad_calls := vad_calls + 1
    let speech := vad chunk_original
    let recorded_chunks :=
      if is_recording then recorded_chunks ++ [chunk_original]
      else recorded_chunks
    if speech.hasStart || speech.hasEnd then
      let started := speech.hasStart && !is_recording
      let is_recording := if started then true else is_recording
      let recorded_chunks := if started then [chunk_original]
        else recorded_chunks
      let voice_state := if started then "Recording..." else voice_state
      if speech.hasEnd && is_recording then
        audio_drain vad buffer false [] chunk_count voice_state vad_calls
          (spawned_queries ++ [recorded_chunks])
      else
        audio_drain vad buffer is_recording recorded_chunks chunk_count
          voice_state vad_calls spawned_queries
    else
      audio_drain vad buffer is_recording recorded_chunks chunk_count
        voice_state vad_calls spawned_queries
  else
    ⟨buffer, is_recording, recorded_chunks, chunk_count, voice_state,
      vad_calls, spawned_queries⟩
termination_by buffer.length
decreasing_by
  all_goals
    simp only [List.length_drop]
    have hb : 0 < bytes_needed := by decide
    omega

/-- Result of one outer iteration of `_audio_recv_loop`. -/
structure AudioStepResult where
  st : AudioState
  vad_calls : Nat
  spawned_queries : List (List Bytes)

/-- One outer iteration of `_audio_recv_loop` after `recvfrom` returned
packet `data` at monotonic time `now`: skip everything until the
experience starts; append the packet to `_manual_chunks` while manual
recording is engaged; skip the VAD entirely while the post-speech
cooldown has not elapsed; skip the VAD entirely while muted; otherwise
append to the packet buffer and drain it. -/
def audio_recv_step (vad : Bytes → VadEvent) (st : AudioState) (data : Bytes)
    (now : ℚ) : AudioStepResult :=
  if !st.experience_started then ⟨st, 0, []⟩
  else
    let st := if st.manual_recording then
        { st with manual_chunks := st.manual_chunks ++ [data] }
      else st
    if now - st.last_speak_end < speak_cooldown then ⟨st, 0, []⟩
    else if st.muted then ⟨st, 0, []⟩
    else
      let r := audio_drain vad (st.packet_buffer ++ data) st.is_recording
        st.recorded_chunks st.chunk_count st.voice_state 0 []
      ⟨{ st with
          packet_buffer := r.packet_buffer
          is_recording := r.is_recording
          recorded_chunks := r.recorded_chunks
          chunk_count := r.chunk_count
          voice_state := r.voice_state },
        r.vad_calls, r.spawned_queries⟩

/-! ## Lock discipline (critical-section structure)

A transcription of every `with <lock>:` block in
`receiver_jetson_full.py` (the compute node takes no locks), listing
the kinds of operations performed while the lock is held. -/

/-- Kinds of operations a critical section may perform while holding its
lock. -/
inductive LockOp where
  | fieldRead
  | fieldWrite
  | logPrint
  | guiCall
  | nestedLockAcquire
  | externalServiceCall
  | subprocessCall
  | networkSend
  | sleepCall
deriving DecidableEq, Repr

/-- `true` for the operations the spec forbids inside a critical
section: blocking network sends and external-service (or subprocess)
invocations. -/
def LockOp.isBlockingCall : LockOp → Bool
  | .externalServiceCall => true
  | .subprocessCall => true
  | .networkSend => true
  | _ => false

/-- One `with <lock>:` block of the source: the lock attribute name,
the enclosing function, and the operations performed under the lock. -/
structure CriticalSection where
  lockName : String
  location : String
  ops : List LockOp
deriving DecidableEq, Repr

/-- Every critical section of `receiver_jetson_full.py`, in source
order. -/
def criticalSections : List CriticalSection :=
  [ ⟨"_camera_lock", "_camera_recv_loop", [.fieldWrite]⟩,
    ⟨"_jetson_lock", "_jetson_recv_loop", [.fieldWrite]⟩,
    ⟨"_temp_lock", "_temp_poll_loop", [.fieldWrite]⟩,
    ⟨"_temp_lock", "_vlm_recv_loop", [.fieldRead]⟩,
    ⟨"_vlm_lock", "_vlm_recv_loop", [.fieldWrite, .fieldRead, .fieldWrite]⟩,
    ⟨"_recipe_lock", "_handle_recipe_client",
      [.fieldWrite, .fieldWrite, .fieldWrite]⟩,
    ⟨"_recipe_lock", "_handle_chat_post (plain list)",
      [.fieldWrite, .fieldWrite, .fieldWrite]⟩,
    ⟨"_recipe_lock", "_handle_chat_post (recommendations)",
      [.fieldWrite, .fieldWrite, .fieldWrite]⟩,
    ⟨"_voice_lock", "_start_experience", [.fieldWrite]⟩,
    ⟨"_recipe_lock", "_maybe_check_steps", [.fieldRead]⟩,
    ⟨"_recipe_lock", "_check_step_completion (read steps)", [.fieldRead]⟩,
    ⟨"_vlm_lock", "_check_step_completion (read log)", [.fieldRead]⟩,
    ⟨"_recipe_lock", "_check_step_completion (write completed)",
      [.fieldWrite, .fieldWrite, .fieldWrite]⟩,
    ⟨"_manual_lock", "_audio_recv_loop", [.fieldRead, .fieldWrite]⟩,
    ⟨"_voice_lock", "_audio_recv_loop (start event)", [.fieldWrite]⟩,
    ⟨"_voice_lock", "_process_voice_query (muted)", [.fieldWrite]⟩,
    ⟨"_voice_lock", "_process_voice_query (transcribing)", [.fieldWrite]⟩,
    ⟨"_voice_lock", "_process_voice_query (empty transcript)", [.fieldWrite]⟩,
    ⟨"_camera_lock", "_process_voice_query", [.fieldRead]⟩,
    ⟨"_voice_lock", "_process_voice_query (thinking)", [.fieldWrite]⟩,
    ⟨"_vlm_lock", "_process_voice_query", [.fieldRead]⟩,
    ⟨"_recipe_lock", "_process_voice_query", [.fieldRead]⟩,
    ⟨"_voice_lock", "_process_voice_query (no response)", [.fieldWrite]⟩,
    ⟨"_voice_lock", "_process_voice_query (speaking)", [.fieldWrite]⟩,
    ⟨"_voice_lock", "_process_voice_query (cooldown)", [.fieldWrite]⟩,
    ⟨"_tts_lock", "_speak_to_esp32",
      [.externalServiceCall, .subprocessCall, .logPrint, .networkSend,
        .sleepCall, .logPrint]⟩,
    ⟨"_vlm_lock", "_append_vlm_message", [.fieldWrite, .fieldRead, .fieldWrite]⟩,
    ⟨"_camera_lock", "_update_display", [.fieldRead]⟩,
    ⟨"_jetson_lock", "_update_display", [.fieldRead]⟩,
    ⟨"_vlm_lock", "_update_display", [.fieldRead, .fieldWrite]⟩,
    ⟨"_recipe_lock", "_update_display", [.fieldRead, .fieldWrite]⟩,
    ⟨"_temp_lock", "_update_display", [.fieldRead]⟩,
    ⟨"_voice_lock", "_update_display", [.fieldRead, .fieldWrite]⟩,
    ⟨"_manual_lock", "_toggle_ask",
      [.fieldRead, .fieldWrite, .guiCall, .logPrint, .nestedLockAcquire]⟩,
    ⟨"_voice_lock", "_toggle_ask (no audio)", [.fieldWrite]⟩,
    ⟨"_camera_lock", "save_raw", [.fieldRead]⟩,
    ⟨"_jetson_lock", "save_processed", [.fieldRead]⟩ ]

/-! ## Helper lemmas -/

@[simp]
theorem append_vlm_message_recipe_steps (st : RecipeSt) (m : String) :
    (append_vlm_message st m).recipe_steps = st.recipe_steps := by
  simp only [append_vlm_message]
  split <;> rfl

@[simp]
theorem append_vlm_message_task_completed (st : RecipeSt) (m : String) :
    (append_vlm_message st m).task_completed = st.task_completed := by
  simp only [append_vlm_message]
  split <;> rfl

@[simp]
theorem append_vlm_message_experience_started (st : RecipeSt) (m : String) :
    (append_vlm_message st m).experience_started = st.experience_started := by
  simp only [append_vlm_message]
  split <;> rfl

@[simp]
theorem append_vlm_message_muted (st : RecipeSt) (m : String) :
    (append_vlm_message st m).muted = st.muted := by
  simp only [append_vlm_message]
  split <;> rfl

@[simp]
theorem append_vlm_message_spoken (st : RecipeSt) (m : String) :
    (append_vlm_message st m).spoken = st.spoken := by
  simp only [append_vlm_message]
  split <;> rfl

@[simp]
theorem append_vlm_message_voice_state (st : RecipeSt) (m : String) :
    (append_vlm_message st m).voice_state = st.voice_state := by
  simp only [append_vlm_message]
  split <;> rfl

@[simp]
theorem start_experience_recipe_steps (st : RecipeSt) (g : Option String) :
    (start_experience st g).recipe_steps = st.recipe_steps := by
  simp only [start_experience]
  split
  · rfl
  · split <;> simp

@[simp]
theorem start_experience_task_completed (st : RecipeSt) (g : Option String) :
    (start_experience st g).task_completed = st.task_completed := by
  simp only [start_experience]
  split
  · rfl
  · split <;> simp

theorem start_experience_already (st : RecipeSt) (g : Option String)
    (h : st.experience_started = true) : start_experience st g = st := by
  simp only [start_experience, h]
  rfl

@[simp]
theorem recipe_replace_experience_started (st : RecipeSt) (items : List Json) :
    (recipe_replace st items).experience_started = st.experience_started := by
  simp [recipe_replace]

@[simp]
theorem recipe_replace_muted (st : RecipeSt) (items : List Json) :
    (recipe_replace st items).muted = st.muted := by
  simp [recipe_replace]

@[simp]
theorem recipe_replace_spoken (st : RecipeSt) (items : List Json) :
    (recipe_replace st items).spoken = st.spoken := by
  simp [recipe_replace]

@[simp]
theorem recipe_replace_recipe_steps (st : RecipeSt) (items : List Json) :
    (recipe_replace st items).recipe_steps = items := by
  simp [recipe_replace]

@[simp]
theorem recipe_replace_task_completed (st : RecipeSt) (items : List Json) :
    (recipe_replace st items).task_completed =
      List.replicate items.length false := by
  simp [recipe_replace]

@[simp]
theorem pack_u32be_length (n : Nat) : (pack_u32be n).length = 4 := rfl

theorem u32be_pack_u32be (n : Nat) (h : n < 2 ^ 32) :
    u32be (pack_u32be n) = n := by
  simp only [u32be, pack_u32be, List.foldl]
  omega

theorem setCompleted_length (l : List Bool) (idx : Int) :
    (setCompleted l idx).length = l.length := by
  unfold setCompleted
  split
  · simp
  · rfl

theorem applyCompleted_cons (x : Int) (xs : List Int) (start : List Bool) :
    applyCompleted start (x :: xs) = applyCompleted (setCompleted start x) xs :=
  rfl

theorem setCompleted_getElem? (l : List Bool) (x : Int) (i : Nat) :
    (setCompleted l x)[i]? =
      (l[i]?).map (fun b => b || decide ((i : Int) = x)) := by
  unfold setCompleted
  split
  · rename_i hc
    rw [List.getElem?_set]
    by_cases hx : x.toNat = i
    · have hxi : (i : Int) = x := by omega
      have hlt : x.toNat < l.length := by omega
      have hlt' : i < l.length := by omega
      rw [if_pos hx, if_pos hlt]
      rw [List.getElem?_eq_getElem hlt']
      simp [hxi]
    · have hxi : ¬(i : Int) = x := by omega
      simp [hx, hxi]
  · rename_i hc
    by_cases hx : (i : Int) = x
    · have hge : l.length ≤ i := by omega
      rw [List.getElem?_eq_none hge]
      rfl
    · simp [hx]

theorem applyCompleted_getElem? (idxs : List Int) (start : List Bool)
    (i : Nat) :
    (applyCompleted start idxs)[i]? =
      (start[i]?).map (fun b => b || decide ((i : Int) ∈ idxs)) := by
  induction idxs generalizing start with
  | nil =>
      simp [applyCompleted]
  | cons x xs ih =>
      rw [applyCompleted_cons, ih, setCompleted_getElem?, Option.map_map]
      rcases start[i]? with _ | b
      · rfl
      · simp only [Option.map_some', Function.comp_apply]
        congr 1
        have : ((i : Int) ∈ x :: xs) ↔ ((i : Int) = x ∨ (i : Int) ∈ xs) :=
          List.mem_cons
        by_cases hx : (i : Int) = x <;> by_cases hm : (i : Int) ∈ xs <;>
          simp [hx, hm, this]

/-! ## Claim theorems -/

/-- C1: a datagram on the processed-frame return port that is shorter
than 4 bytes, or whose payload after the 4-byte big-endian header does
not have exactly the declared length, is dropped: the stored last
frame, the frame counter and the FPS estimate are unchanged. -/
theorem jetson_short_or_mismatched_datagram_dropped {Frame : Type}
    (imdecode : Bytes → Option Frame) (st : JetsonStreamState Frame)
    (data : Bytes) (now : ℚ)
    (h : data.length < 4 ∨ (data.drop 4).length ≠ u32be (data.take 4)) :
    (jetson_recv_step imdecode st data now).jetson_frame = st.jetson_frame ∧
    (jetson_recv_step imdecode st data now).jetson_frame_count =
      st.jetson_frame_count ∧
    (jetson_recv_step imdecode st data now).jetson_fps = st.jetson_fps := by
  have hp : parse_datagram data = none := by
    unfold parse_datagram
    rcases h with h | h
    · simp [h]
    · rcases Nat.lt_or_ge data.length 4 with h4 | h4
      · simp [h4]
      · rw [List.length_drop] at h
        simp [Nat.not_lt.mpr h4, h]
  unfold jetson_recv_step
  rw [hp]
  by_cases hc : st.jetson_connected <;> simp [hc]

/-- Witness for C1: a 4-byte header declaring length 100 followed by
only 50 bytes is dropped and the frame counter stays at 3. -/
theorem jetson_short_or_mismatched_datagram_dropped_witness :
    ((pack_u32be 100 ++ List.replicate 50 0).length < 4 ∨
      ((pack_u32be 100 ++ List.replicate 50 0).drop 4).length ≠
        u32be ((pack_u32be 100 ++ List.replicate 50 0).take 4)) ∧
    (jetson_recv_step (fun _ => some 0)
        (⟨none, 3, 5, 2, false⟩ : JetsonStreamState Nat)
        (pack_u32be 100 ++ List.replicate 50 0) 10).jetson_frame_count = 3 :=
  ⟨by decide,
    (jetson_short_or_mismatched_datagram_dropped (fun _ => some 0)
      (⟨none, 3, 5, 2, false⟩ : JetsonStreamState Nat)
      (pack_u32be 100 ++ List.replicate 50 0) 10 (by decide)).2.1⟩

/-- C3: applying an assessment response listing completed step indices
to an N-step recipe sets `completed[i]` to true exactly for the listed
indices with `0 ≤ i < N` and to false everywhere else; listed indices
outside `[0, N)` are ignored (the update is a total function, so no
error escapes).  In particular a response listing indices 0 and 2 against a 3-step
recipe yields `[true, false, true]`. -/
theorem assessment_marks_exactly_listed_indices (st : RecipeSt)
    (idxs : List Int) :
    ((check_step_completion_apply st idxs).task_completed =
      (List.range st.recipe_steps.length).map
        (fun (i : Nat) => decide ((i : Int) ∈ idxs))) ∧
    applyCompleted (List.replicate 3 false) [0, 2] =
      [true, false, true] := by
  constructor
  · unfold check_step_completion_apply
    apply List.ext_getElem?
    intro n
    rw [applyCompleted_getElem?, List.getElem?_map]
    by_cases h : n < st.recipe_steps.length
    · rw [List.getElem?_range h]
      simp [List.getElem?_replicate, h]
    · have h1 : (List.replicate st.recipe_steps.length false)[n]? = none := by
        simp [List.getElem?_replicate, h]
      have h2 : (List.range st.recipe_steps.length)[n]? = none := by
        apply List.getElem?_eq_none
        simpa using Nat.le_of_not_lt h
      simp [h1, h2]
  · decide

/-- C2: whenever recipe ingestion replaces the step list — via the
length-prefixed TCP path (whose framed request is exactly the 4-byte
big-endian length header followed by the payload) or via the HTTP push
path — the completed flags end up as exactly one `false` per step,
regardless of the prior state.  For the HTTP handler on an arbitrary
body, either the recipe fields are left untouched or the flags are
all-false of the new step count. -/
theorem recipe_replacement_resets_completed
    (parse : Bytes → Option Json) (pyStr jsonDumps : Json → String)
    (st : RecipeSt) (payload : Bytes) (items : List Json) (data : Json)
    (hp : parse payload = some (.arr items))
    (hlen : payload.length ≤ 10 * 1024 * 1024) :
    (handle_recipe_client parse st (pack_u32be payload.length ++ payload) =
      handle_recipe_payload parse st payload) ∧
    ((handle_recipe_payload parse st payload).recipe_steps = items ∧
      (handle_recipe_payload parse st payload).task_completed =
        List.replicate items.length false) ∧
    (((handle_chat_post pyStr jsonDumps st data).recipe_steps =
          st.recipe_steps ∧
        (handle_chat_post pyStr jsonDumps st data).task_completed =
          st.task_completed) ∨
      (handle_chat_post pyStr jsonDumps st data).task_completed =
        List.replicate
          (handle_chat_post pyStr jsonDumps st data).recipe_steps.length
          false) := by
  refine ⟨?_, ⟨?_, ?_⟩, ?_⟩
  · have hlt : payload.length < 2 ^ 32 := by omega
    unfold handle_recipe_client
    have e3 : (pack_u32be payload.length ++ payload).length =
        4 + payload.length := by
      rw [List.length_append, pack_u32be_length]
    have e1 : (pack_u32be payload.length ++ payload).take 4 =
        pack_u32be payload.length := rfl
    have e2 : (pack_u32be payload.length ++ payload).drop 4 = payload := rfl
    rw [if_neg (by rw [e3]; omega), e1, e2,
      u32be_pack_u32be payload.length hlt, if_neg (by omega),
      List.take_length payload, if_neg (by simp)]
  · unfold handle_recipe_payload
    rw [hp]
    simp
  · unfold handle_recipe_payload
    rw [hp]
    simp
  · rcases data with s | n | b | _ | items' | fields
    · left; exact ⟨rfl, rfl⟩
    · left; exact ⟨rfl, rfl⟩
    · left; exact ⟨rfl, rfl⟩
    · left; exact ⟨rfl, rfl⟩
    · unfold handle_chat_post
      dsimp only
      by_cases he : (items'.map (step_to_string pyStr jsonDumps)).isEmpty
      · rw [if_pos he]; left; exact ⟨rfl, rfl⟩
      · rw [if_neg he]; right; simp
    · unfold handle_chat_post
      dsimp only
      set st1 := if truthy (getD fields "message" (.str ""))
        then append_vlm_message st ("[CHAT] " ++
          fstr pyStr (getD fields "message" (.str ""))) else st with hst1
      have hfields : st1.recipe_steps = st.recipe_steps ∧
          st1.task_completed = st.task_completed := by
        rw [hst1]
        split <;> simp
      by_cases hr : truthy (getD fields "recommendations" (.arr []))
      · rw [if_pos hr]
        rcases hrec : getD fields "recommendations" (.arr []) with
          _ | _ | _ | _ | recs | _
        · left; exact hfields
        · left; exact hfields
        · left; exact hfields
        · left; exact hfields
        · rcases recs with _ | ⟨rec, rest⟩
          · left; exact hfields
          · rcases rec with _ | _ | _ | _ | _ | rfields
            · left; exact hfields
            · left; exact hfields
            · left; exact hfields
            · left; exact hfields
            · left; exact hfields
            · dsimp only
              by_cases hq : truthy (getD rfields "recipeTaskQueue" (.arr []))
              · rw [if_pos hq]
                rcases getD rfields "recipeTaskQueue" (.arr []) with
                  qs | _ | _ | _ | qitems | qfields
                · right; simp [pyIter]
                · left; exact hfields
                · left; exact hfields
                · left; exact hfields
                · right; simp [pyIter]
                · right; simp [pyIter]
              · rw [if_neg hq]; left; exact hfields
        · left; exact hfields
      · rw [if_neg hr]; left; exact hfields

/-- Witness for C2: a concrete two-step payload through the TCP path
and a concrete plain-list HTTP body. -/
theorem recipe_replacement_resets_completed_witness :
    ((fun _ : Bytes => some (Json.arr [.str "step a", .str "step b"]))
        [1, 2] = some (Json.arr [.str "step a", .str "step b"])) ∧
    (([1, 2] : Bytes).length ≤ 10 * 1024 * 1024) ∧
    ((handle_recipe_payload
        (fun _ => some (Json.arr [.str "step a", .str "step b"]))
        (⟨[], [true], true, true, true, "s", false, [], 0, []⟩ : RecipeSt)
        [1, 2]).task_completed = List.replicate 2 false) :=
  ⟨rfl, by decide,
    ((recipe_replacement_resets_completed
      (fun _ => some (Json.arr [.str "step a", .str "step b"]))
      (fun _ => "") (fun _ => "")
      (⟨[], [true], true, true, true, "s", false, [], 0, []⟩ : RecipeSt)
      [1, 2] [.str "step a", .str "step b"] (Json.arr [])
      rfl (by decide)).2.1).2⟩

/-- C4: while the post-speech cooldown has not elapsed
(`now - _last_speak_end < _speak_cooldown`), an audio packet triggers
no VAD classifier invocation, spawns no voice query, and neither starts
recording nor changes the voice state. -/
theorem cooldown_blocks_vad_recording (vad : Bytes → VadEvent)
    (st : AudioState) (data : Bytes) (now : ℚ)
    (h : now - st.last_speak_end < speak_cooldown) :
    (audio_recv_step vad st data now).vad_calls = 0 ∧
    (audio_recv_step vad st data now).spawned_queries = [] ∧
    (audio_recv_step vad st data now).st.is_recording = st.is_recording ∧
    (audio_recv_step vad st data now).st.voice_state = st.voice_state := by
  unfold audio_recv_step
  rcases hee : st.experience_started <;> rcases hme : st.manual_recording <;>
    simp [hee, hme, h]

/-- Witness for C4: 3 seconds after speech ended (cooldown 7 s), even a
VAD oracle that always reports a start event neither fires nor starts
recording. -/
theorem cooldown_blocks_vad_recording_witness :
    ((3 : ℚ) - 0 < speak_cooldown) ∧
    (audio_recv_step (fun _ => ⟨true, false⟩)
        (⟨true, false, [], 0, false, "Listening", [], false, [], 0⟩ :
          AudioState) [1] 3).vad_calls = 0 ∧
    (audio_recv_step (fun _ => ⟨true, false⟩)
        (⟨true, false, [], 0, false, "Listening", [], false, [], 0⟩ :
          AudioState) [1] 3).st.is_recording = false :=
  ⟨by norm_num [speak_cooldown],
    (cooldown_blocks_vad_recording (fun _ => ⟨true, false⟩)
      (⟨true, false, [], 0, false, "Listening", [], false, [], 0⟩ :
        AudioState) [1] 3 (by norm_num [speak_cooldown])).1,
    (cooldown_blocks_vad_recording (fun _ => ⟨true, false⟩)
      (⟨true, false, [], 0, false, "Listening", [], false, [], 0⟩ :
        AudioState) [1] 3 (by norm_num [speak_cooldown])).2.2.1⟩

/-- C6: while muted, an audio packet never invokes the VAD classifier
(so no VAD start event can move the state out of Listening), spawns no
transcription/voice-query task, and leaves the voice state, recording
flag and packet buffer unchanged; only manual-override recording still
captures the packet. -/
theorem muted_blocks_vad (vad : Bytes → VadEvent) (st : AudioState)
    (data : Bytes) (now : ℚ) (hm : st.muted = true) :
    (audio_recv_step vad st data now).vad_calls = 0 ∧
    (audio_recv_step vad st data now).spawned_queries = [] ∧
    (audio_recv_step vad st data now).st.voice_state = st.voice_state ∧
    (audio_recv_step vad st data now).st.is_recording = st.is_recording ∧
    (audio_recv_step vad st data now).st.packet_buffer = st.packet_buffer ∧
    (audio_recv_step vad st data now).st.manual_chunks =
      (if st.experience_started = true ∧ st.manual_recording = true
        then st.manual_chunks ++ [data] else st.manual_chunks) := by
  unfold audio_recv_step
  rcases hee : st.experience_started <;> rcases hme : st.manual_recording <;>
    by_cases hc : now - st.last_speak_end < speak_cooldown <;>
      simp [hee, hme, hm, hc]

/-- Witness for C6: a muted session fed a packet by an always-start VAD
oracle stays in Listening with no spawned query. -/
theorem muted_blocks_vad_witness :
    ((⟨true, false, [], 0, true, "Listening", [], false, [], 0⟩ :
        AudioState).muted = true) ∧
    (audio_recv_step (fun _ => ⟨true, false⟩)
        (⟨true, false, [], 0, true, "Listening", [], false, [], 0⟩ :
          AudioState) [1] 100).st.voice_state = "Listening" ∧
    (audio_recv_step (fun _ => ⟨true, false⟩)
        (⟨true, false, [], 0, true, "Listening", [], false, [], 0⟩ :
          AudioState) [1] 100).spawned_queries = [] :=
  ⟨rfl,
    (muted_blocks_vad (fun _ => ⟨true, false⟩)
      (⟨true, false, [], 0, true, "Listening", [], false, [], 0⟩ :
        AudioState) [1] 100 rfl).2.2.1,
    (muted_blocks_vad (fun _ => ⟨true, false⟩)
      (⟨true, false, [], 0, true, "Listening", [], false, [], 0⟩ :
        AudioState) [1] 100 rfl).2.1⟩

theorem start_experience_experience_started (st : RecipeSt)
    (g : Option String) : (start_experience st g).experience_started = true := by
  unfold start_experience
  split
  · assumption
  · by_cases hm : st.muted <;> simp [hm]

theorem recipe_greeting_ne_empty (n : Nat) : recipe_greeting n ≠ "" := by
  unfold recipe_greeting
  intro h
  have hl := congrArg String.length h
  have h21 : ("Hi! I see you have a " : String).length = 21 := rfl
  have h0 : ("" : String).length = 0 := rfl
  simp only [String.length_append, h21, h0] at hl
  omega

theorem start_experience_spoken_of_not_started (st : RecipeSt) (g : String)
    (hs : st.experience_started = false) (hg : g ≠ "") :
    (start_experience st (some g)).spoken =
      (if st.muted then st.spoken else st.spoken ++ [g]) := by
  unfold start_experience
  rw [if_neg (by simp [hs])]
  dsimp only
  rw [if_neg hg]
  by_cases hm : st.muted <;> simp [hm]

/-- C5: the experience-start transition is idempotent.  Starting from a
not-yet-started state, a first TCP recipe ingestion sets the started
flag and fires the greeting exactly once (spawning the TTS announcement
only when not muted); a second ingestion of the same payload is exactly
the recipe replacement applied to the intermediate state — it replaces
the step list again but performs no part of the start transition, and
spawns no further announcement. -/
theorem experience_start_idempotent (parse : Bytes → Option Json)
    (st : RecipeSt) (payload : Bytes) (items : List Json)
    (hp : parse payload = some (.arr items))
    (hs : st.experience_started = false) :
    (handle_recipe_payload parse st payload).experience_started = true ∧
    (st.muted = false →
      (handle_recipe_payload parse st payload).spoken =
        st.spoken ++ [recipe_greeting items.length]) ∧
    (st.muted = true →
      (handle_recipe_payload parse st payload).spoken = st.spoken) ∧
    handle_recipe_payload parse (handle_recipe_payload parse st payload)
        payload =
      recipe_replace (handle_recipe_payload parse st payload) items ∧
    (handle_recipe_payload parse (handle_recipe_payload parse st payload)
        payload).spoken = (handle_recipe_payload parse st payload).spoken := by
  have hgen : ∀ s : RecipeSt, handle_recipe_payload parse s payload =
      start_experience (recipe_replace s items)
        (some (recipe_greeting items.length)) := by
    intro s
    unfold handle_recipe_payload
    rw [hp]
  have hstarted : (handle_recipe_payload parse st payload).experience_started
      = true := by
    rw [hgen]
    exact start_experience_experience_started _ _
  refine ⟨hstarted, ?_, ?_, ?_, ?_⟩
  · intro hmu
    rw [hgen, start_experience_spoken_of_not_started _ _
      (by simp [hs]) (recipe_greeting_ne_empty _)]
    simp [hmu]
  · intro hmu
    rw [hgen, start_experience_spoken_of_not_started _ _
      (by simp [hs]) (recipe_greeting_ne_empty _)]
    simp [hmu]
  · rw [hgen (handle_recipe_payload parse st payload)]
    exact start_experience_already _ _ (by simp [hstarted])
  · rw [hgen (handle_recipe_payload parse st payload),
      start_experience_already _ _ (by simp [hstarted])]
    simp

/-- Witness for C5: a concrete three-step payload ingested twice from a
fresh state fires the greeting once and leaves the second ingestion a
pure replacement. -/
theorem experience_start_idempotent_witness :
    ((fun _ : Bytes => some (Json.arr [.str "step a", .str "step b",
        .str "step c"])) [0] =
      some (Json.arr [.str "step a", .str "step b", .str "step c"])) ∧
    ((⟨[], [], false, false, false, "Waiting", false, [], 0, []⟩ :
        RecipeSt).experience_started = false) ∧
    (handle_recipe_payload
        (fun _ => some (Json.arr [.str "step a", .str "step b",
          .str "step c"]))
        (⟨[], [], false, false, false, "Waiting", false, [], 0, []⟩ :
          RecipeSt) [0]).spoken = [] ++ [recipe_greeting 3] :=
  ⟨rfl, rfl,
    (experience_start_idempotent
      (fun _ => some (Json.arr [.str "step a", .str "step b", .str "step c"]))
      (⟨[], [], false, false, false, "Waiting", false, [], 0, []⟩ : RecipeSt)
      [0] [.str "step a", .str "step b", .str "step c"] rfl rfl).2.1 rfl⟩

/-- C7: after the experience has started, an accepted camera frame
(decode succeeded) is forwarded to the compute node as exactly the
received 4-byte header concatenated with the received payload; parsing
that forwarded datagram with the shared framing decode recovers the
payload bytes unchanged, so an unmodified round trip preserves them. -/
theorem camera_forward_roundtrip {Frame : Type}
    (imdecode : Bytes → Option Frame) (st : CameraState Frame)
    (stream header jpeg_data rest : Bytes) (now : ℚ) (f : Frame)
    (hread : camera_read_frame stream = some (header, jpeg_data, rest))
    (hdec : imdecode jpeg_data = some f)
    (hexp : st.experience_started = true) :
    (camera_frame_step imdecode st header jpeg_data now).forwarded =
      some (header ++ jpeg_data) ∧
    parse_datagram (header ++ jpeg_data) = some jpeg_data := by
  unfold camera_read_frame at hread
  by_cases h4 : stream.length < 4
  · rw [if_pos h4] at hread
    exact absurd hread (by simp)
  · rw [if_neg h4] at hread
    by_cases hshort : (stream.drop 4).length < u32be (stream.take 4)
    · rw [if_pos hshort] at hread
      exact absurd hread (by simp)
    · rw [if_neg hshort] at hread
      have hh : header = stream.take 4 := by
        have := Option.some.inj hread
        exact (congrArg Prod.fst this).symm
      have hj : jpeg_data = (stream.drop 4).take (u32be (stream.take 4)) := by
        have := Option.some.inj hread
        exact (congrArg (fun p => p.2.1) this).symm
      have hhlen : header.length = 4 := by
        rw [hh, List.length_take]
        omega
      have hjlen : jpeg_data.length = u32be header := by
        rw [hj, List.length_take, hh]
        omega
      constructor
      · unfold camera_frame_step
        rw [hdec]
        by_cases he : (1 : ℚ) ≤ now - st.camera_fps_time <;>
          simp [he, hexp]
      · unfold parse_datagram
        rw [if_neg (by rw [List.length_append]; omega)]
        have ht : (header ++ jpeg_data).take 4 = header := by
          rw [← hhlen, List.take_left]
        have hd : (header ++ jpeg_data).drop 4 = jpeg_data := by
          rw [← hhlen, List.drop_left]
        rw [ht, hd, if_pos hjlen]

/-- Witness for C7: a concrete 2-byte frame behind a well-formed header
is forwarded verbatim and parses back to the same payload. -/
theorem camera_forward_roundtrip_witness :
    (camera_read_frame [0, 0, 0, 2, 7, 8] =
      some ([0, 0, 0, 2], [7, 8], [])) ∧
    ((fun _ : Bytes => some (0 : Nat)) [7, 8] = some 0) ∧
    (camera_frame_step (fun _ => some (0 : Nat))
        (⟨none, 0, 0, 0, true⟩ : CameraState Nat)
        [0, 0, 0, 2] [7, 8] 5).forwarded = some ([0, 0, 0, 2] ++ [7, 8]) ∧
    parse_datagram ([0, 0, 0, 2] ++ [7, 8]) = some [7, 8] :=
  ⟨by decide, rfl,
    (camera_forward_roundtrip (fun _ => some (0 : Nat))
      (⟨none, 0, 0, 0, true⟩ : CameraState Nat)
      [0, 0, 0, 2, 7, 8] [0, 0, 0, 2] [7, 8] [] 5 0
      (by decide) rfl rfl).1,
    (camera_forward_roundtrip (fun _ => some (0 : Nat))
      (⟨none, 0, 0, 0, true⟩ : CameraState Nat)
      [0, 0, 0, 2, 7, 8] [0, 0, 0, 2] [7, 8] [] 5 0
      (by decide) rfl rfl).2⟩

/-- C9: every processed-frame datagram the compute node emits is at most
`MAX_UDP_PAYLOAD = 65503` bytes of header plus payload; a first encode
exceeding the ceiling is retried once at quality
`max(20, jpeg_quality - 30)`, and if that retry is still oversized the
frame is dropped rather than sent. -/
theorem return_datagram_within_ceiling (imencode : Int → Option Bytes)
    (jpeg_quality : Int) :
    (∀ d, encode_for_send imencode jpeg_quality = some d →
      d.length ≤ MAX_UDP_PAYLOAD) ∧
    (∀ jb rb, imencode jpeg_quality = some jb →
      jb.length + 4 > MAX_UDP_PAYLOAD →
      imencode (max 20 (jpeg_quality - 30)) = some rb →
      rb.length + 4 > MAX_UDP_PAYLOAD →
      encode_for_send imencode jpeg_quality = none) := by
  constructor
  · intro d hd
    unfold encode_for_send at hd
    rcases h1 : imencode jpeg_quality with _ | jb
    · rw [h1] at hd
      exact absurd hd (by simp)
    · rw [h1] at hd
      dsimp only at hd
      by_cases hbig : jb.length + 4 > MAX_UDP_PAYLOAD
      · rw [if_pos hbig] at hd
        rcases h2 : imencode (max 20 (jpeg_quality - 30)) with _ | rb
        · rw [h2] at hd
          exact absurd hd (by simp)
        · rw [h2] at hd
          dsimp only at hd
          by_cases hbig2 : rb.length + 4 > MAX_UDP_PAYLOAD
          · rw [if_pos hbig2] at hd
            exact absurd hd (by simp)
          · rw [if_neg hbig2] at hd
            have hde := Option.some.inj hd
            rw [← hde, List.length_append, pack_u32be_length]
            omega
      · rw [if_neg hbig] at hd
        have hde := Option.some.inj hd
        rw [← hde, List.length_append, pack_u32be_length]
        omega
  · intro jb rb h1 h2 h3 h4
    unfold encode_for_send
    rw [h1]
    dsimp only
    rw [if_pos h2, h3]
    dsimp only
    rw [if_pos h4]

/-- Witness for C9: an encoder that always yields 65,500 payload bytes
is oversized at both qualities, so the frame is dropped; a 3-byte
encode is emitted within the ceiling. -/
theorem return_datagram_within_ceiling_witness :
    ((fun _ : Int => some (List.replicate 65500 (0 : Nat))) 85 =
      some (List.replicate 65500 0)) ∧
    (List.replicate 65500 (0 : Nat)).length + 4 > MAX_UDP_PAYLOAD ∧
    encode_for_send (fun _ => some (List.replicate 65500 (0 : Nat))) 85 =
      none ∧
    (encode_for_send (fun _ => some ([1, 2, 3] : Bytes)) 85 =
      some (pack_u32be 3 ++ [1, 2, 3])) ∧
    (pack_u32be 3 ++ ([1, 2, 3] : Bytes)).length ≤ MAX_UDP_PAYLOAD := by
  have hbig : (List.replicate 65500 (0 : Nat)).length + 4 > MAX_UDP_PAYLOAD := by
    rw [List.length_replicate]
    decide
  refine ⟨rfl, hbig, ?_, by decide, ?_⟩
  · exact (return_datagram_within_ceiling
      (fun _ => some (List.replicate 65500 (0 : Nat))) 85).2
      (List.replicate 65500 0) (List.replicate 65500 0) rfl hbig rfl hbig
  · exact (return_datagram_within_ceiling
      (fun _ => some ([1, 2, 3] : Bytes)) 85).1 (pack_u32be 3 ++ [1, 2, 3])
      (by decide)

/-- C10: posting an empty plain JSON array to the HTTP push endpoint is
ignored — the whole state (so in particular the recipe steps, completion
flags and experience-started flag) is unchanged and no start
announcement fires — whereas the TCP length-prefixed path accepts an
empty JSON array: it replaces the step list (and the completion flags)
with the empty list and runs the experience-start transition. -/
theorem empty_array_http_ignored_tcp_accepted
    (pyStr jsonDumps : Json → String) (parse : Bytes → Option Json)
    (st : RecipeSt) (payload : Bytes)
    (hp : parse payload = some (.arr [])) :
    handle_chat_post pyStr jsonDumps st (.arr []) = st ∧
    (handle_recipe_payload parse st payload).recipe_steps = [] ∧
    (handle_recipe_payload parse st payload).task_completed = [] ∧
    (handle_recipe_payload parse st payload).experience_started = true := by
  have h1 : handle_recipe_payload parse st payload =
      start_experience (recipe_replace st []) (some (recipe_greeting 0)) := by
    unfold handle_recipe_payload
    rw [hp]
    rfl
  refine ⟨rfl, ?_, ?_, ?_⟩
  · rw [h1]
    simp
  · rw [h1]
    simp
  · rw [h1]
    exact start_experience_experience_started _ _

/-- Witness for C10: a fresh state receives an empty array on both
paths; HTTP leaves it untouched, TCP empties the steps and starts the
experience. -/
theorem empty_array_http_ignored_tcp_accepted_witness :
    ((fun _ : Bytes => some (Json.arr [])) [] = some (Json.arr [])) ∧
    handle_chat_post (fun _ => "") (fun _ => "")
      (⟨[.str "old"], [true], false, false, false, "Waiting", false, [], 0,
        []⟩ : RecipeSt) (.arr []) =
      (⟨[.str "old"], [true], false, false, false, "Waiting", false, [], 0,
        []⟩ : RecipeSt) ∧
    (handle_recipe_payload (fun _ => some (Json.arr []))
      (⟨[.str "old"], [true], false, false, false, "Waiting", false, [], 0,
        []⟩ : RecipeSt) []).experience_started = true :=
  ⟨rfl,
    (empty_array_http_ignored_tcp_accepted (fun _ => "") (fun _ => "")
      (fun _ => some (Json.arr []))
      (⟨[.str "old"], [true], false, false, false, "Waiting", false, [], 0,
        []⟩ : RecipeSt) [] rfl).1,
    (empty_array_http_ignored_tcp_accepted (fun _ => "") (fun _ => "")
      (fun _ => some (Json.arr []))
      (⟨[.str "old"], [true], false, false, false, "Waiting", false, [], 0,
        []⟩ : RecipeSt) [] rfl).2.2.2⟩

/-- C8 counterexample: the playback serializer `_tts_lock` in
`_speak_to_esp32` is a critical section guarding shared playback state
whose body performs an external-service call (speech synthesis), a
subprocess invocation and network sends while the lock is held, so the
claim that every such critical section contains only field reads and
writes is false on the code. -/
theorem tts_lock_crosses_io :
    (⟨"_tts_lock", "_speak_to_esp32",
      [.externalServiceCall, .subprocessCall, .logPrint, .networkSend,
        .sleepCall, .logPrint]⟩ : CriticalSection) ∈ criticalSections ∧
    LockOp.externalServiceCall ∈
      (⟨"_tts_lock", "_speak_to_esp32",
        [.externalServiceCall, .subprocessCall, .logPrint, .networkSend,
          .sleepCall, .logPrint]⟩ : CriticalSection).ops ∧
    LockOp.externalServiceCall.isBlockingCall = true := by
  refine ⟨?_, by decide, rfl⟩
  decide

/-- C8 (amended): every critical section except the playback
serializer lock `_tts_lock` performs no blocking network or
external-service operation while its lock is held. -/
theorem locks_hold_no_io_except_playback :
    ∀ cs ∈ criticalSections, cs.lockName ≠ "_tts_lock" →
      ∀ op ∈ cs.ops, op.isBlockingCall = false := by
  decide

/-- Witness for C8 (amended): the camera-frame critical section holds
its lock across a field write only. -/
theorem locks_hold_no_io_except_playback_witness :
    ((⟨"_camera_lock", "_camera_recv_loop", [.fieldWrite]⟩ :
        CriticalSection) ∈ criticalSections) ∧
    ("_camera_lock" ≠ "_tts_lock") ∧
    LockOp.fieldWrite.isBlockingCall = false :=
  ⟨by decide, by decide,
    locks_hold_no_io_except_playback
      (⟨"_camera_lock", "_camera_recv_loop", [.fieldWrite]⟩ : CriticalSection)
      (by decide) (by decide) LockOp.fieldWrite (by decide)⟩

end Remy
